import Mathlib

/-!
Shallow embedding of the pathview worker/controller message protocol
(`src/pathview/worker.py` and `src/pathview/app.py`).

Messages are modelled as an inductive mirroring the JSON envelopes the two
sides exchange; Python values that flow through the streaming loop and the
eval path are modelled by `PyVal`; `json.dumps(..., default=str)` is modelled
by `dumps`.  Stateful worker functions are modelled as pure functions from
explicit state (plus the semantic denotation of the user-supplied code, which
is a parameter: the repository never interprets that code itself, it hands it
to `exec`/`eval`).
-/

namespace PathView

/-- A protocol message (one JSON line).  Field layout follows worker.py's
`send` calls and app.py's expectations: `stdout`/`stderr` carry no id,
`ok`/`value`/`stream-data`/`stream-done` carry one, `error` may carry one. -/
inductive Msg where
  | ready : Msg
  | progress (value : String) : Msg
  | stdout (value : String) : Msg
  | stderr (value : String) : Msg
  | ok (id : String) : Msg
  | value (id : String) (value : String) : Msg
  | error (id : Option String) (error : String) (traceback : Option String) : Msg
  | streamData (id : String) (value : String) : Msg
  | streamDone (id : String) : Msg
deriving DecidableEq, Repr

/-- True exactly for `stream-done` messages. -/
def Msg.isStreamDone : Msg → Bool
  | .streamDone _ => true
  | _ => false

/-- True for a terminal reply (`ok`/`value`/`error`) carrying the given id
(the correlation rule's notion of terminal reply). -/
def Msg.isTerminalFor (msgId : String) : Msg → Bool
  | .ok i => i == msgId
  | .value i _ => i == msgId
  | .error (some i) _ _ => i == msgId
  | _ => false

/-! ## Line-level reading

A raw line on a channel either strips to the empty string, is non-empty but
not valid JSON, or parses to a message.  `content` on an invalid line is the
stripped text (used in error messages). -/

/-- One raw line as a receiver sees it after `.strip()`. -/
inductive RawLine where
  | blank : RawLine
  | invalid (content : String) : RawLine
  | valid (m : Msg) : RawLine
deriving DecidableEq, Repr

/-- worker.py `read_message` (lines 90-98): reads lines from stdin; returns
`none` at EOF; skips lines that strip to empty; on a non-empty line calls
`json.loads` with no exception handler, so an invalid line raises
`json.JSONDecodeError` (modelled as `Except.error` carrying the line). -/
def read_message : List RawLine → Except String (Option Msg)
  | [] => .ok none
  | .blank :: rest => read_message rest
  | .invalid content :: _ => .error content
  | .valid m :: _ => .ok (some m)

/-- app.py `Session.read_line` (lines 65-81): reads lines from the worker's
stdout; returns `none` at EOF; skips blank lines; wraps `json.loads` in
try/except `JSONDecodeError` and continues on failure. -/
def Session.read_line : List RawLine → Option Msg
  | [] => none
  | .blank :: rest => Session.read_line rest
  | .invalid _ :: rest => Session.read_line rest
  | .valid m :: _ => some m

/-! ## Python values -/

/-- A Python value as far as the protocol code inspects one. -/
inductive PyVal where
  | none : PyVal
  | bool (b : Bool) : PyVal
  | int (n : Int) : PyVal
  | str (s : String) : PyVal
  | list (elems : List PyVal) : PyVal
  | dict (entries : List (String × PyVal)) : PyVal

/-- Python truthiness of a `PyVal` (`if v:`). -/
def truthy : PyVal → Bool
  | .none => false
  | .bool b => b
  | .int n => n != 0
  | .str s => !s.isEmpty
  | .list xs => !xs.isEmpty
  | .dict es => !es.isEmpty

/-- `isinstance(v, dict)`. -/
def PyVal.isDict : PyVal → Bool
  | .dict _ => true
  | _ => false

/-- `d.get(k)` on a dict, `none` when the key is absent or the value is not a
dict. -/
def dictGet : PyVal → String → Option PyVal
  | .dict es, k => (es.find? (fun p => p.1 == k)).map Prod.snd
  | _, _ => Option.none

/-- worker.py line 349: `raw_result.get("done", False) if isinstance(raw_result, dict) else False`,
then used for its truthiness. -/
def pyDone (v : PyVal) : Bool :=
  truthy ((dictGet v "done").getD (.bool false))

/-- worker.py line 353 condition (minus `not done`):
`isinstance(raw_result, dict) and raw_result.get("result")`, by truthiness. -/
def hasTruthyResult (v : PyVal) : Bool :=
  v.isDict && truthy ((dictGet v "result").getD .none)

mutual
/-- `json.dumps(v, default=str)` as the worker calls it (separators are the
default `", "` / `": "`; string escaping is not modelled). -/
def dumps : PyVal → String
  | .none => "null"
  | .bool true => "true"
  | .bool false => "false"
  | .int n => toString n
  | .str s => "\"" ++ s ++ "\""
  | .list xs => "[" ++ dumpsList xs ++ "]"
  | .dict es => "\x7b" ++ dumpsEntries es ++ "\x7d"

/-- Comma-joined dump of a list's elements. -/
def dumpsList : List PyVal → String
  | [] => ""
  | [x] => dumps x
  | x :: xs => dumps x ++ ", " ++ dumpsList xs

/-- Comma-joined dump of a dict's entries. -/
def dumpsEntries : List (String × PyVal) → String
  | [] => ""
  | [(k, v)] => "\"" ++ k ++ "\": " ++ dumps v
  | (k, v) :: es => "\"" ++ k ++ "\": " ++ dumps v ++ ", " ++ dumpsEntries es
end

/-! ## Worker state, exec and eval

`_namespace` is a string-keyed mutable environment; we model it as an
association list (`nsInsert` shadows, `nsLookup` finds the newest binding).
The Python semantics of a user code snippet is not interpreted by the
repository — `exec`/`eval` are handed the string — so a snippet's effect is a
parameter: a function from namespace to namespace plus an outcome (success,
timeout of `_run_with_timeout`, or an uncaught fault wrapped in `_ExecError`
with message and traceback).  Even failing runs may have partially mutated
the namespace, hence the new namespace is returned in every outcome. -/

/-- The execution namespace. -/
abbrev Namespace : Type := List (String × PyVal)

/-- Look up a name in the namespace. -/
def nsLookup (ns : Namespace) (k : String) : Option PyVal :=
  ((ns : List (String × PyVal)).find? (fun p => p.1 == k)).map Prod.snd

/-- Bind a name in the namespace (shadowing any older binding). -/
def nsInsert (k : String) (v : PyVal) (ns : Namespace) : Namespace :=
  ((k, v) :: (ns : List (String × PyVal)) : List (String × PyVal))

/-- Outcome of `_run_with_timeout(lambda: exec(code, _namespace))`:
the (possibly partially) mutated namespace, and how the run ended. -/
inductive RunOutcome where
  | ok : RunOutcome
  | timeout : RunOutcome
  | fault (error : String) (traceback : String) : RunOutcome

/-- Outcome of evaluating `_eval_result = expr`: on success the value the
expression produced (which `exec` binds to `_eval_result`). -/
inductive EvalOutcome where
  | ok (v : PyVal) : EvalOutcome
  | timeout : EvalOutcome
  | fault (error : String) (traceback : String) : EvalOutcome

/-- config.py `EXEC_TIMEOUT` (seconds). -/
def EXEC_TIMEOUT : Nat := 30

/-- `str(TimeoutError(...))` raised by `_run_with_timeout`. -/
def timeoutErrMsg : String :=
  "Execution timed out after " ++ toString EXEC_TIMEOUT ++ "s"

/-- Worker globals relevant to request handling: `_initialized` and
`_namespace`. -/
structure WorkerState where
  initialized : Bool
  ns : Namespace

/-- worker.py `exec_code` (lines 225-237).  `run` is the denotation of
`exec(code, _namespace)` under `_run_with_timeout`.  Returns the new state
and the messages sent. -/
def exec_code (msgId : String) (run : Namespace → Namespace × RunOutcome)
    (s : WorkerState) : WorkerState × List Msg :=
  if !s.initialized then
    (s, [.error (some msgId) "Worker not initialized" none])
  else
    match run s.ns with
    | (ns', .ok) => ({ s with ns := ns' }, [.ok msgId])
    | (ns', .timeout) => ({ s with ns := ns' }, [.error (some msgId) timeoutErrMsg none])
    | (ns', .fault e tb) => ({ s with ns := ns' }, [.error (some msgId) e (some tb)])

/-- worker.py `eval_expr` (lines 240-258).  `run` is the denotation of
`exec("_eval_result = " + expr, _namespace)`: on success the expression's
value `v` is bound to `_eval_result` in the namespace, then serialized with
`json.dumps(..., default=...)` and sent as `value`. -/
def eval_expr (msgId : String) (run : Namespace → Namespace × EvalOutcome)
    (s : WorkerState) : WorkerState × List Msg :=
  if !s.initialized then
    (s, [.error (some msgId) "Worker not initialized" none])
  else
    match run s.ns with
    | (ns', .ok v) =>
        ({ s with ns := nsInsert "_eval_result" v ns' }, [.value msgId (dumps v)])
    | (ns', .timeout) => ({ s with ns := ns' }, [.error (some msgId) timeoutErrMsg none])
    | (ns', .fault e tb) => ({ s with ns := ns' }, [.error (some msgId) e (some tb)])

/-! ## The streaming loop

worker.py `run_streaming_loop` (lines 302-374).  A concurrent reader thread
may flip `_streaming_active` at any moment; the loop observes that flag at
two points per iteration (the `while` test and the post-step check), so one
iteration of the schedule records: whether a stop was observed at the top of
the loop (`stopBefore`), the outcomes of the `stream-exec` snippets drained
this iteration (`codeResults`, `some e` = the snippet raised `e`), the step's
outcome, and whether a stop was observed after the step (`stopDuring`).  The
namespace itself is irrelevant to the emitted message sequence (values
produced by steps are carried in `StepOutcome`), so it is not threaded. -/

/-- Outcome of one `_run_with_timeout(lambda: exec(f"_eval_result = ...")`
step: the value bound to `_eval_result`, a `TimeoutError`, or an uncaught
`_ExecError` (which escapes to the loop's outer `except`). -/
inductive StepOutcome where
  | ok (v : PyVal) : StepOutcome
  | timeout : StepOutcome
  | fault (error : String) (traceback : String) : StepOutcome

/-- One scheduled iteration of the streaming loop (see section comment). -/
structure StreamIter where
  stopBefore : Bool
  codeResults : List (Option String)
  stepOutcome : StepOutcome
  stopDuring : Bool

/-- Messages emitted while draining `_streaming_code_queue`: each failing
snippet yields one non-fatal `stderr` line (worker.py lines 327-335). -/
def streamExecMsgs (codeResults : List (Option String)) : List Msg :=
  codeResults.filterMap (fun r => r.map (fun e => Msg.stderr ("Stream exec error: " ++ e)))

/-- worker.py line 346 error text for a timed-out step. -/
def stepTimeoutMsg : String :=
  "Simulation step timed out after " ++ toString EXEC_TIMEOUT ++ "s"

/-- Result of running the loop against a finite schedule: either the loop
exited (`finished`, with the messages the loop body sent) or the schedule ran
out while the loop would continue (`running`). -/
inductive LoopResult where
  | finished (msgs : List Msg) : LoopResult
  | running (msgs : List Msg) : LoopResult
deriving DecidableEq, Repr

/-- The `while _streaming_active` body of `run_streaming_loop`
(worker.py lines 324-364), iterated over the schedule. -/
def streamLoopBody (msgId : String) : List StreamIter → LoopResult
  | [] => .running []
  | it :: rest =>
    if it.stopBefore then .finished []
    else
      let pre := streamExecMsgs it.codeResults
      match it.stepOutcome with
      | .timeout => .finished (pre ++ [.error (some msgId) stepTimeoutMsg none])
      | .fault e tb => .finished (pre ++ [.error (some msgId) e (some tb)])
      | .ok v =>
        if it.stopDuring then
          .finished (pre ++
            (if !pyDone v && hasTruthyResult v
             then [.streamData msgId (dumps v)] else []))
        else if pyDone v then .finished pre
        else
          match streamLoopBody msgId rest with
          | .finished ms => .finished (pre ++ [.streamData msgId (dumps v)] ++ ms)
          | .running ms => .running (pre ++ [.streamData msgId (dumps v)] ++ ms)

/-- The messages a `LoopResult` carries. -/
def LoopResult.msgs : LoopResult → List Msg
  | .finished ms => ms
  | .running ms => ms

/-- worker.py `run_streaming_loop` (lines 302-374): uninitialized workers get
one `error` and no loop (the early return skips the try/finally, so no
`stream-done`); otherwise the loop runs and the `finally` block appends
exactly one `stream-done` once the loop exits for any reason. -/
def run_streaming_loop (msgId : String) (initialized : Bool)
    (iters : List StreamIter) : LoopResult :=
  if !initialized then
    .finished [.error (some msgId) "Worker not initialized" none]
  else
    match streamLoopBody msgId iters with
    | .finished ms => .finished (ms ++ [.streamDone msgId])
    | .running ms => .running ms

/-! ## Initialization

worker.py `initialize` (lines 136-177) and `_ensure_package` (lines 111-134).
Whether `pip install`/`import` of a given package succeeds is environment
behaviour, modelled by a function `env : Pkg → PkgOutcome`. -/

/-- One entry of the `packages` list, with the defaults `pkg.get(...)`
applies (worker.py lines 113-116). -/
structure Pkg where
  importName : String
  pip : String
  required : Bool
  pre : Bool
deriving DecidableEq, Repr

/-- Environment outcome for `_ensure_package` on one package: import (after
install if needed) succeeded and `__version__` was readable; succeeded
without a readable version; or the install/import raised with message `e`. -/
inductive PkgOutcome where
  | okVersion (v : String) : PkgOutcome
  | okNoVersion : PkgOutcome
  | fail (e : String) : PkgOutcome
deriving DecidableEq, Repr

/-- worker.py `_ensure_package` (lines 111-134): the messages it sends, and
`some e` when it raises. -/
def ensurePackage (env : Pkg → PkgOutcome) (p : Pkg) : List Msg × Option String :=
  let prog := Msg.progress ("Installing " ++ p.importName ++ "...")
  match env p with
  | .okVersion v =>
      ([prog, .stdout (p.importName ++ " " ++ v ++ " loaded successfully\n")], none)
  | .okNoVersion =>
      ([prog, .stdout (p.importName ++ " loaded successfully\n")], none)
  | .fail e => ([prog], some e)

/-- Error text of the `RuntimeError` raised for a required package
(worker.py lines 165-167). -/
def requiredFailMsg (p : Pkg) (e : String) : String :=
  "Failed to install required package " ++ p.pip ++ ": " ++ e

/-- The `stderr` line reporting an optional package's failure
(worker.py line 168). -/
def optionalFailMsg (p : Pkg) (e : String) : String :=
  "Optional package " ++ p.importName ++ " failed: " ++ e ++ "\n"

/-- The `for pkg in packages` loop of `initialize` (lines 160-168): messages
sent, and `some msg` when a required package's failure raises out of the
loop (aborting initialization). -/
def installLoop (env : Pkg → PkgOutcome) : List Pkg → List Msg × Option String
  | [] => ([], none)
  | p :: rest =>
    let (pm, err?) := ensurePackage env p
    match err? with
    | none =>
        let (ms, raised) := installLoop env rest
        (pm ++ ms, raised)
    | some e =>
        if p.required then (pm, some (requiredFailMsg p e))
        else
          let (ms, raised) := installLoop env rest
          (pm ++ [.stderr (optionalFailMsg p e)] ++ ms, raised)

/-- The fresh namespace `initialize` builds (`__builtins__`, `gc`, `json`,
and a best-effort numpy import — contents irrelevant to the claims). -/
def initNamespace : Namespace := ([] : List (String × PyVal))

/-- worker.py `initialize` (lines 136-177): new state, messages sent, and
`some msg` when it raises (a required package failed).  When already
initialized it immediately replies `ready` and changes nothing; the
`_initialized = True` assignment comes after the install loop, so an abort
leaves the flag false and never sends `ready`. -/
def initializeWorker (packages : List Pkg) (env : Pkg → PkgOutcome)
    (s : WorkerState) : WorkerState × List Msg × Option String :=
  if s.initialized then (s, [.ready], none)
  else
    let head := [Msg.progress "Initializing Python worker..."]
    let instMsgs :=
      if packages.isEmpty then ([] : List Msg)
      else [Msg.progress "Installing dependencies..."]
    let (loopMsgs, raised) :=
      if packages.isEmpty then (([] : List Msg), (none : Option String))
      else installLoop env packages
    match raised with
    | some e => ({ initialized := false, ns := initNamespace },
                 head ++ instMsgs ++ loopMsgs, some e)
    | none => ({ initialized := true, ns := initNamespace },
               head ++ instMsgs ++ loopMsgs ++ [.ready], none)

/-- worker.py `main` handling of an `init` message (lines 403-404 and
438-443): a `RuntimeError` escaping `initialize` is caught by the outer
handler, which sends an `error` echoing the request's id (the controller
sends `init` without an id, so `msgId` is `none` in practice). -/
def handle_init (msgId : Option String) (packages : List Pkg)
    (env : Pkg → PkgOutcome) (s : WorkerState) : WorkerState × List Msg :=
  match initializeWorker packages env s with
  | (s', msgs, none) => (s', msgs)
  | (s', msgs, some e) => (s', msgs ++ [.error msgId e none])

/-! ## Controller side (app.py)

The controller's `Session` holds an `_initialized` flag; reading the worker's
stdout is modelled by a finite list of already-parsed replies (for
`ensure_initialized`) or of read events including timeout (for the dispatch
loop). -/

/-- Result of `Session.ensure_initialized`: the collected messages, or the
`RuntimeError` it raises on an `error` reply or on worker death (EOF). -/
inductive InitCollect where
  | okMsgs (msgs : List Msg) : InitCollect
  | raised (e : String) : InitCollect
  | died : InitCollect
deriving DecidableEq, Repr

/-- The read loop of `ensure_initialized` (app.py lines 118-128): appends
every reply, stops at `ready` (success) or `error` (raises) or EOF
(raises "Worker process died during initialization"). -/
def collectInit : List Msg → List Msg → InitCollect
  | [], _ => .died
  | r :: rest, acc =>
    match r with
    | .ready => .okMsgs (acc ++ [.ready])
    | .error _ e _ => .raised e
    | m => collectInit rest (acc ++ [m])

/-- Controller-side session state (the fields of app.py's `Session` the
claims touch). -/
structure CtrlSession where
  initialized : Bool

/-- app.py `Session.ensure_initialized` (lines 109-128): when already
initialized returns `[]` immediately and sends nothing; otherwise sends one
`init` request (modelled as the count of messages written) and collects
replies until `ready`/`error`/EOF.  Returns (new session state, number of
messages sent to the worker, collection result). -/
def ensure_initialized (s : CtrlSession) (replies : List Msg) :
    CtrlSession × Nat × InitCollect :=
  if s.initialized then (s, 0, .okMsgs [])
  else
    match collectInit replies [] with
    | .okMsgs ms => ({ initialized := true }, 1, .okMsgs ms)
    | .raised e => (s, 1, .raised e)
    | .died => (s, 1, .died)

/-- The session registry `_sessions`, abstracted to the set of live session
ids. -/
abbrev Registry : Type := List String

/-- app.py `remove_session` (lines 267-272): pop the id and kill the
process. -/
def remove_session (sid : String) (reg : Registry) : Registry :=
  (reg : List String).filter (fun x => x ≠ sid)

/-- What one `read_line_timeout` call in the dispatch loop produces: a
message, EOF (`read_line` returned None), or a raised `TimeoutError`. -/
inductive ReadEvent where
  | msg (m : Msg) : ReadEvent
  | eof : ReadEvent
  | timeoutExn : ReadEvent

/-- Which terminal type `_handle_worker_request` was told to match
(`"ok"` for exec, `"value"` for eval). -/
inductive SuccessKind where
  | ok : SuccessKind
  | value : SuccessKind

/-- Does this reply match `resp_type == success_type and resp.get("id") == msg_id`? -/
def matchesSuccess (k : SuccessKind) (msgId : String) : Msg → Bool
  | .ok i => (match k with | .ok => i == msgId | .value => false)
  | .value i _ => (match k with | .ok => false | .value => i == msgId)
  | _ => false

/-- Does this reply match `resp_type == "error" and resp.get("id") == msg_id`? -/
def matchesError (msgId : String) : Msg → Bool
  | .error (some i) _ _ => i == msgId
  | _ => false

/-- An HTTP-level outcome of the dispatcher (status code plus the
distinguishing fields of the JSON body it builds). -/
structure HttpResp where
  status : Nat
  errorType : Option String
  stdoutAcc : List String
  stderrAcc : List String
  terminal : Option Msg

/-- The read loop of app.py `_handle_worker_request` (lines 369-398),
starting after `ensure_initialized` and `send_message` succeeded: consumes
read events, accumulating `stdout`/`stderr` payloads; a `TimeoutError`
(except-clause, lines 396-398) removes the session and answers 504 with
`errorType = "timeout"`; EOF removes the session and answers 500 with
`errorType = "worker-crashed"`; a matching terminal reply answers 200
(success) or 400 (`error`); anything else is skipped.  Returns `none` for
the response when the event list runs out while the loop would keep
reading. -/
def handle_worker_request (sid : String) (reg : Registry) (msgId : String)
    (k : SuccessKind) : List ReadEvent → List String → List String →
    Registry × Option HttpResp
  | [], _, _ => (reg, none)
  | .timeoutExn :: _, so, se =>
      (remove_session sid reg,
       some { status := 504, errorType := some "timeout",
              stdoutAcc := so, stderrAcc := se, terminal := none })
  | .eof :: _, so, se =>
      (remove_session sid reg,
       some { status := 500, errorType := some "worker-crashed",
              stdoutAcc := so, stderrAcc := se, terminal := none })
  | .msg m :: rest, so, se =>
      match m with
      | .stdout v => handle_worker_request sid reg msgId k rest (so ++ [v]) se
      | .stderr v => handle_worker_request sid reg msgId k rest so (se ++ [v])
      | m' =>
        if matchesSuccess k msgId m' then
          (reg, some { status := 200, errorType := none,
                       stdoutAcc := so, stderrAcc := se, terminal := some m' })
        else if matchesError msgId m' then
          (reg, some { status := 400, errorType := none,
                       stdoutAcc := so, stderrAcc := se, terminal := some m' })
        else handle_worker_request sid reg msgId k rest so se

/-! ## Helper lemmas about the streaming loop -/

/-- Every message produced while draining the `stream-exec` queue is a
`stderr` line. -/
theorem mem_streamExecMsgs (cs : List (Option String)) (m : Msg)
    (hm : m ∈ streamExecMsgs cs) : ∃ t, m = .stderr t := by
  simp only [streamExecMsgs, List.mem_filterMap] at hm
  obtain ⟨r, _, hr⟩ := hm
  cases r with
  | none => simp at hr
  | some e =>
      simp only [Option.map_some'] at hr
      exact ⟨_, (Option.some_injective _ hr).symm⟩

/-- Every message the streaming loop body sends is a `stderr` line, an
`error` carrying the stream's id, or a `stream-data` carrying the id and the
serialization of a step value whose `done` flag is falsy. -/
theorem streamLoopBody_msgs_char (msgId : String) :
    ∀ (iters : List StreamIter) (m : Msg),
    m ∈ (streamLoopBody msgId iters).msgs →
    (∃ t, m = .stderr t) ∨
    (∃ e tb, m = .error (some msgId) e tb) ∨
    (∃ v, m = .streamData msgId (dumps v) ∧ pyDone v = false ∧
          ∃ it ∈ iters, it.stepOutcome = .ok v) := by
  intro iters
  induction iters with
  | nil =>
      intro m hm
      simp [streamLoopBody, LoopResult.msgs] at hm
  | cons it rest ih =>
      intro m hm
      obtain ⟨sb, cs, so, sd⟩ := it
      cases sb with
      | true => simp [streamLoopBody, LoopResult.msgs] at hm
      | false =>
          cases so with
          | timeout =>
              simp only [streamLoopBody, LoopResult.msgs, Bool.false_eq_true,
                if_false, List.mem_append, List.mem_singleton] at hm
              rcases hm with h1 | h2
              · exact Or.inl (mem_streamExecMsgs cs m h1)
              · exact Or.inr (Or.inl ⟨_, _, h2⟩)
          | fault e tb =>
              simp only [streamLoopBody, LoopResult.msgs, Bool.false_eq_true,
                if_false, List.mem_append, List.mem_singleton] at hm
              rcases hm with h1 | h2
              · exact Or.inl (mem_streamExecMsgs cs m h1)
              · exact Or.inr (Or.inl ⟨_, _, h2⟩)
          | ok v =>
              cases sd with
              | true =>
                  simp only [streamLoopBody, LoopResult.msgs, Bool.false_eq_true,
                    if_false, if_true, List.mem_append] at hm
                  rcases hm with h1 | h2
                  · exact Or.inl (mem_streamExecMsgs cs m h1)
                  · by_cases hc : (!pyDone v && hasTruthyResult v) = true
                    · rw [if_pos hc] at h2
                      simp only [List.mem_singleton] at h2
                      refine Or.inr (Or.inr ⟨v, h2, ?_, ⟨⟨false, cs, .ok v, true⟩, ?_, rfl⟩⟩)
                      · have := (Bool.and_eq_true _ _).mp hc
                        simpa using this.1
                      · exact List.mem_cons_self _ _
                    · rw [if_neg hc] at h2
                      simp at h2
              | false =>
                  by_cases hd : pyDone v = true
                  · simp only [streamLoopBody, LoopResult.msgs, Bool.false_eq_true,
                      if_false, hd, if_true] at hm
                    exact Or.inl (mem_streamExecMsgs cs m hm)
                  · have hd' : pyDone v = false := by
                      cases h : pyDone v
                      · rfl
                      · exact absurd h hd
                    rcases hrest : streamLoopBody msgId rest with ms | ms
                    all_goals
                      simp only [streamLoopBody, LoopResult.msgs, Bool.false_eq_true,
                        if_false, hd', hrest, List.mem_append, List.mem_singleton] at hm
                    all_goals
                      rcases hm with (h1 | h2) | h3
                      · exact Or.inl (mem_streamExecMsgs cs m h1)
                      · exact Or.inr (Or.inr ⟨v, h2, hd', ⟨⟨false, cs, .ok v, false⟩,
                          List.mem_cons_self _ _, rfl⟩⟩)
                      · rcases ih m (by rw [hrest]; exact h3) with hA | hB | hC
                        · exact Or.inl hA
                        · exact Or.inr (Or.inl hB)
                        · obtain ⟨w, hw1, hw2, it', hit', hit2⟩ := hC
                          exact Or.inr (Or.inr ⟨w, hw1, hw2, it', List.mem_cons_of_mem _ hit', hit2⟩)

/-- The streaming loop body contains at most one terminal (`ok`/`value`/
`error`) reply carrying the stream's id (errors end the loop). -/
theorem streamLoopBody_terminal_le_one (msgId : String) :
    ∀ iters : List StreamIter,
    ((streamLoopBody msgId iters).msgs).countP (Msg.isTerminalFor msgId) ≤ 1 := by
  intro iters
  induction iters with
  | nil => simp [streamLoopBody, LoopResult.msgs]
  | cons it rest ih =>
      obtain ⟨sb, cs, so, sd⟩ := it
      have hpre : (streamExecMsgs cs).countP (Msg.isTerminalFor msgId) = 0 := by
        rw [List.countP_eq_zero]
        intro a ha
        obtain ⟨t, rfl⟩ := mem_streamExecMsgs cs a ha
        simp [Msg.isTerminalFor]
      cases sb with
      | true => simp [streamLoopBody, LoopResult.msgs]
      | false =>
          cases so with
          | timeout =>
              simp [streamLoopBody, LoopResult.msgs, List.countP_append, hpre,
                List.countP_cons, Msg.isTerminalFor]
          | fault e tb =>
              simp [streamLoopBody, LoopResult.msgs, List.countP_append, hpre,
                List.countP_cons, Msg.isTerminalFor]
          | ok v =>
              cases sd with
              | true =>
                  by_cases hc : (!pyDone v && hasTruthyResult v) = true
                  · simp [streamLoopBody, LoopResult.msgs, hc, List.countP_append,
                      hpre, List.countP_cons, Msg.isTerminalFor]
                  · simp [streamLoopBody, LoopResult.msgs, hc, List.countP_append,
                      hpre, List.countP_cons, Msg.isTerminalFor]
              | false =>
                  by_cases hd : pyDone v = true
                  · simp [streamLoopBody, LoopResult.msgs, hd, hpre]
                  · have hd' : pyDone v = false := by
                      cases h : pyDone v
                      · rfl
                      · exact absurd h hd
                    rcases hrest : streamLoopBody msgId rest with ms | ms
                    all_goals
                      have ihm := ih
                      rw [hrest] at ihm
                      simp only [LoopResult.msgs] at ihm
                      simp [streamLoopBody, LoopResult.msgs, hd', hrest,
                        List.countP_append, hpre, List.countP_cons, Msg.isTerminalFor]
                      omega

/-- A terminated streaming run decomposes as the loop body's messages
followed by the single `stream-done` appended by the `finally` block. -/
theorem run_finished_shape (msgId : String) (iters : List StreamIter)
    (msgs : List Msg) (h : run_streaming_loop msgId true iters = .finished msgs) :
    ∃ ms, streamLoopBody msgId iters = .finished ms ∧
          msgs = ms ++ [.streamDone msgId] := by
  rcases hb : streamLoopBody msgId iters with ms | ms
  · rw [run_streaming_loop] at h
    simp only [Bool.not_true, Bool.false_eq_true, if_false, hb,
      LoopResult.finished.injEq] at h
    exact ⟨ms, rfl, h.symm⟩
  · rw [run_streaming_loop] at h
    simp [hb] at h

/-! ## Claim theorems: streaming -/

/-- C1: once the streaming loop is entered (worker initialized), however it
ends — natural `done` completion, stop request, step timeout, or uncaught
fault — the emitted message sequence contains exactly one `stream-done`,
carrying the stream's id, and it is the last message (hence after any
terminal `error` of the stream). -/
theorem stream_done_exactly_once (msgId : String) (iters : List StreamIter)
    (msgs : List Msg) (h : run_streaming_loop msgId true iters = .finished msgs) :
    msgs.countP Msg.isStreamDone = 1 ∧
    msgs.getLast? = some (.streamDone msgId) := by
  obtain ⟨ms, hb, rfl⟩ := run_finished_shape msgId iters msgs h
  constructor
  · rw [List.countP_append]
    have h0 : ms.countP Msg.isStreamDone = 0 := by
      rw [List.countP_eq_zero]
      intro a ha
      rcases streamLoopBody_msgs_char msgId iters a (by rw [hb]; exact ha) with
        ⟨t, rfl⟩ | ⟨e, tb, rfl⟩ | ⟨v, rfl, _, _⟩
      all_goals simp [Msg.isStreamDone]
    simp [h0, Msg.isStreamDone]
  · simp

/-- Witness for C1: a one-step stream whose first step reports `done`. -/
theorem stream_done_exactly_once_witness :
    ([Msg.streamDone "s"] : List Msg).countP Msg.isStreamDone = 1 ∧
    ([Msg.streamDone "s"] : List Msg).getLast? = some (.streamDone "s") :=
  stream_done_exactly_once "s"
    [⟨false, [], .ok (.dict [("done", .bool true)]), false⟩]
    [Msg.streamDone "s"] (by decide)

/-- C5 (first conjunct): every `stream-data` the loop emits serializes a step
value whose `done` flag is falsy; (second conjunct): a step whose result has
a truthy `done` flag ends the loop with no `stream-data` for that step —
only the drained `stream-exec` stderr lines and the final `stream-done`. -/
theorem stream_data_only_when_not_done (msgId : String)
    (iters rest : List StreamIter) (msgs : List Msg) (s : String)
    (cs : List (Option String)) (v : PyVal) (sd : Bool)
    (h : run_streaming_loop msgId true iters = .finished msgs)
    (hs : Msg.streamData msgId s ∈ msgs)
    (hd : pyDone v = true) :
    (∃ w, pyDone w = false ∧ s = dumps w ∧ ∃ it ∈ iters, it.stepOutcome = .ok w) ∧
    run_streaming_loop msgId true (⟨false, cs, .ok v, sd⟩ :: rest)
      = .finished (streamExecMsgs cs ++ [.streamDone msgId]) := by
  constructor
  · rcases hb : streamLoopBody msgId iters with ms | ms
    · rw [run_streaming_loop] at h
      simp only [Bool.not_true, Bool.false_eq_true, if_false, hb,
        LoopResult.finished.injEq] at h
      subst h
      rcases List.mem_append.mp hs with h1 | h2
      · rcases streamLoopBody_msgs_char msgId iters _ (by rw [hb]; exact h1) with
          ⟨t, ht⟩ | ⟨e, tb, ht⟩ | ⟨w, hw, hw2, hw3⟩
        · exact absurd ht (by simp)
        · exact absurd ht (by simp)
        · have hv : s = dumps w := by
            simp only [Msg.streamData.injEq, true_and] at hw
            exact hw
          exact ⟨w, hw2, hv, hw3⟩
      · simp at h2
    · rw [run_streaming_loop] at h
      simp [hb] at h
  · cases sd with
    | true =>
        rw [run_streaming_loop]
        simp [streamLoopBody, hd]
    | false =>
        rw [run_streaming_loop]
        simp [streamLoopBody, hd]

/-- Witness for C5: a two-step stream — one undone step, then a done step. -/
theorem stream_data_only_when_not_done_witness :
    (∃ w, pyDone w = false ∧ dumps (PyVal.dict [("result", .int 1)]) = dumps w ∧
        ∃ it ∈ [(⟨false, [], .ok (.dict [("result", .int 1)]), false⟩ : StreamIter),
                ⟨false, [], .ok (.dict [("done", .bool true)]), false⟩],
          it.stepOutcome = .ok w) ∧
    run_streaming_loop "s" true
        [⟨false, [], .ok (.dict [("done", .bool true)]), false⟩]
      = .finished (streamExecMsgs [] ++ [.streamDone "s"]) :=
  stream_data_only_when_not_done "s"
    [⟨false, [], .ok (.dict [("result", .int 1)]), false⟩,
     ⟨false, [], .ok (.dict [("done", .bool true)]), false⟩]
    []
    [Msg.streamData "s" (dumps (PyVal.dict [("result", .int 1)])), Msg.streamDone "s"]
    (dumps (PyVal.dict [("result", .int 1)]))
    [] (.dict [("done", .bool true)]) false
    (by decide) (by decide) (by decide)

/-- C4 counterexample: a stop observed during a step whose result is
`dict(result=0)` — the `done` flag is falsy, so the claim demands the result
be emitted as `stream-data`, but worker.py line 353 additionally requires
`raw_result.get("result")` to be truthy, and `0` is not: the loop emits only
`stream-done`. -/
theorem stop_midstep_no_emit_for_falsy_result :
    run_streaming_loop "s" true
        [⟨false, [], .ok (.dict [("result", .int 0)]), true⟩]
      = .finished [.streamDone "s"] ∧
    pyDone (.dict [("result", .int 0)]) = false := by
  constructor
  · decide
  · decide

/-- C4 amended: if a `stream-stop` is observed while a step executes, the
loop exits after that iteration (the remaining schedule is never consulted),
and it emits the just-computed result as `stream-data` exactly when the
result is a dict whose `done` flag is falsy AND whose `result` field is
truthy (worker.py lines 351-356). -/
theorem stop_midstep_emit_condition (msgId : String)
    (cs : List (Option String)) (v : PyVal) (rest : List StreamIter) :
    run_streaming_loop msgId true (⟨false, cs, .ok v, true⟩ :: rest)
      = .finished (streamExecMsgs cs ++
          (if !pyDone v && hasTruthyResult v
           then [.streamData msgId (dumps v)] else [])
          ++ [.streamDone msgId]) := by
  rw [run_streaming_loop]
  by_cases hc : (!pyDone v && hasTruthyResult v) = true
  · simp [streamLoopBody, hc]
  · simp [streamLoopBody, hc]

/-- C2 counterexample: a `stream-start` (with an id, worker initialized)
whose first step reports `done` produces zero terminal `ok`/`value`/`error`
replies carrying that id — only a `stream-done` — contradicting the claim
that every id-carrying request processed by the worker yields exactly one
such terminal reply. -/
theorem stream_start_no_terminal_reply :
    run_streaming_loop "s1" true
        [⟨false, [], .ok (.dict [("done", .bool true)]), false⟩]
      = .finished [.streamDone "s1"] ∧
    ([Msg.streamDone "s1"] : List Msg).countP (Msg.isTerminalFor "s1") = 0 := by
  constructor
  · decide
  · decide

/-- C2 amended: an `exec` or `eval` request processed by the worker produces
exactly one terminal `ok`/`value`/`error` reply carrying its id (whether the
worker is initialized or not, and whatever the run outcome); a `stream-start`
whose loop ends produces at most one such terminal reply, and its final
message is always the `stream-done` carrying the id.  (`stdout`/`stderr`
messages carry no id by construction of the message type.) -/
theorem exec_eval_one_terminal_stream_done_final (msgId : String)
    (run : Namespace → Namespace × RunOutcome)
    (runE : Namespace → Namespace × EvalOutcome) (s : WorkerState)
    (iters : List StreamIter) (msgs : List Msg)
    (h : run_streaming_loop msgId true iters = .finished msgs) :
    (exec_code msgId run s).2.countP (Msg.isTerminalFor msgId) = 1 ∧
    (eval_expr msgId runE s).2.countP (Msg.isTerminalFor msgId) = 1 ∧
    msgs.countP (Msg.isTerminalFor msgId) ≤ 1 ∧
    msgs.getLast? = some (.streamDone msgId) := by
  obtain ⟨ms, hb, rfl⟩ := run_finished_shape msgId iters msgs h
  refine ⟨?_, ?_, ?_, by simp⟩
  · rw [exec_code]
    by_cases hi : s.initialized
    · rcases hr : run s.ns with ⟨ns', o⟩
      cases o <;> simp [hi, hr, Msg.isTerminalFor]
    · simp [hi, Msg.isTerminalFor]
  · rw [eval_expr]
    by_cases hi : s.initialized
    · rcases hr : runE s.ns with ⟨ns', o⟩
      cases o <;> simp [hi, hr, Msg.isTerminalFor]
    · simp [hi, Msg.isTerminalFor]
  · have hle := streamLoopBody_terminal_le_one msgId iters
    rw [hb] at hle
    simp only [LoopResult.msgs] at hle
    simp [List.countP_append, List.countP_cons, Msg.isTerminalFor]
    omega

/-- Witness for the amended C2: exec of a successful snippet, eval of a
timing-out expression, and the one-step done stream. -/
theorem exec_eval_one_terminal_stream_done_final_witness :
    (exec_code "r" (fun ns => (ns, .ok)) ⟨true, []⟩).2.countP
        (Msg.isTerminalFor "r") = 1 ∧
    (eval_expr "r" (fun ns => (ns, .timeout)) ⟨true, []⟩).2.countP
        (Msg.isTerminalFor "r") = 1 ∧
    ([Msg.streamDone "r"] : List Msg).countP (Msg.isTerminalFor "r") ≤ 1 ∧
    ([Msg.streamDone "r"] : List Msg).getLast? = some (.streamDone "r") :=
  exec_eval_one_terminal_stream_done_final "r" (fun ns => (ns, .ok))
    (fun ns => (ns, .timeout)) ⟨true, []⟩
    [⟨false, [], .ok (.dict [("done", .bool true)]), false⟩]
    [Msg.streamDone "r"] (by decide)

/-! ## Claim theorems: line reading, exec/eval, init -/

/-- C3 counterexample: on an invalid-JSON line the worker-side reader
`read_message` raises `json.JSONDecodeError` (it never reaches the valid
message behind the noise), while the controller-side `Session.read_line`
skips it and returns the next parseable message — so the claim that *every*
receiver skips invalid lines is false on the worker side. -/
theorem read_message_raises_on_invalid :
    read_message [.invalid "not-json", .valid .ready] = .error "not-json" ∧
    Session.read_line [.invalid "not-json", .valid .ready] = some .ready := by
  constructor
  · rfl
  · rfl

/-- C3 amended: the controller-side reader (`Session.read_line`) skips blank
and invalid-JSON lines; the worker-side reader (`read_message`) skips blank
lines but raises on an invalid-JSON line (`json.loads` is unguarded at
worker.py line 98, and `main` calls `read_message` outside its try block, so
the exception terminates the worker's main loop). -/
theorem reader_noise_handling (c : String) (lines : List RawLine) :
    Session.read_line (.blank :: lines) = Session.read_line lines ∧
    Session.read_line (.invalid c :: lines) = Session.read_line lines ∧
    read_message (.blank :: lines) = read_message lines ∧
    read_message (.invalid c :: lines) = .error c :=
  ⟨rfl, rfl, rfl, rfl⟩

/-- C6: the namespace persists across calls — a successful `exec` leaves
exactly the namespace its code produced in the worker state handed to the
next call, and concretely `exec("x=10")` followed by `eval("x")` yields
`value "10"` (the denotations of the two snippets being: bind `x` to `10`;
look up `x`). -/
theorem namespace_persistence (s : WorkerState) (i1 i2 : String)
    (run : Namespace → Namespace × RunOutcome) (ns' : Namespace)
    (hinit : s.initialized = true) (hrun : run s.ns = (ns', .ok)) :
    ((exec_code i1 run s).1.ns = ns' ∧
     (exec_code i1 run s).1.initialized = true ∧
     (exec_code i1 run s).2 = [.ok i1]) ∧
    (eval_expr i2 (fun ns => (ns, .ok ((nsLookup ns "x").getD .none)))
        (exec_code i1 (fun ns => (nsInsert "x" (.int 10) ns, .ok)) s).1).2
      = [.value i2 "10"] := by
  constructor
  · simp [exec_code, hinit, hrun]
  · simp [exec_code, eval_expr, hinit, nsLookup, nsInsert, dumps]
    decide

/-- Witness for C6, from the empty namespace. -/
theorem namespace_persistence_witness :
    ((exec_code "a" (fun ns => ((("y", PyVal.int 3) :: ns : Namespace), .ok))
        ⟨true, []⟩).1.ns = (("y", PyVal.int 3) :: ([] : Namespace) : Namespace) ∧
     (exec_code "a" (fun ns => ((("y", PyVal.int 3) :: ns : Namespace), .ok))
        ⟨true, []⟩).1.initialized = true ∧
     (exec_code "a" (fun ns => ((("y", PyVal.int 3) :: ns : Namespace), .ok))
        ⟨true, []⟩).2 = [.ok "a"]) ∧
    (eval_expr "b" (fun ns => (ns, .ok ((nsLookup ns "x").getD .none)))
        (exec_code "a" (fun ns => (nsInsert "x" (.int 10) ns, .ok))
          ⟨true, []⟩).1).2
      = [.value "b" "10"] :=
  namespace_persistence ⟨true, []⟩ "a" "b"
    (fun ns => ((("y", PyVal.int 3) :: ns : Namespace), .ok))
    (("y", PyVal.int 3) :: ([] : Namespace)) rfl rfl

/-- C7: `init` is idempotent — an initialized worker answers a repeat `init`
with `ready` alone, unchanged state, no installation activity; and the
controller's `ensure_initialized` on an initialized session writes no
messages (0 sends) and returns `[]` immediately. -/
theorem init_idempotent (s : WorkerState) (cs : CtrlSession)
    (packages : List Pkg) (env : Pkg → PkgOutcome) (replies : List Msg)
    (hw : s.initialized = true) (hc : cs.initialized = true) :
    initializeWorker packages env s = (s, [.ready], none) ∧
    ensure_initialized cs replies = (cs, 0, .okMsgs []) := by
  constructor
  · simp [initializeWorker, hw]
  · simp [ensure_initialized, hc]

/-- Witness for C7. -/
theorem init_idempotent_witness :
    initializeWorker [⟨"pathsim", "pathsim", true, false⟩]
        (fun _ => .okNoVersion) ⟨true, []⟩ = (⟨true, []⟩, [.ready], none) ∧
    ensure_initialized ⟨true⟩ [.ready] = (⟨true⟩, 0, .okMsgs []) :=
  init_idempotent ⟨true, []⟩ ⟨true⟩ [⟨"pathsim", "pathsim", true, false⟩]
    (fun _ => .okNoVersion) [.ready] rfl rfl

/-- C10: an `exec` or `eval` with an id reaching an uninitialized worker is
answered by exactly one `error` carrying that id and the message
"Worker not initialized"; the supplied code/expression is never run and the
whole worker state (namespace included) is unchanged. -/
theorem uninitialized_request_rejected (s : WorkerState) (msgId : String)
    (run : Namespace → Namespace × RunOutcome)
    (runE : Namespace → Namespace × EvalOutcome)
    (h : s.initialized = false) :
    exec_code msgId run s
      = (s, [.error (some msgId) "Worker not initialized" none]) ∧
    eval_expr msgId runE s
      = (s, [.error (some msgId) "Worker not initialized" none]) := by
  constructor
  · simp [exec_code, h]
  · simp [eval_expr, h]

/-- Witness for C10 (the run denotations would mutate the namespace if they
ran; the state stays `⟨false, []⟩`). -/
theorem uninitialized_request_rejected_witness :
    exec_code "q" (fun ns => (nsInsert "x" (.int 1) ns, .ok)) ⟨false, []⟩
      = (⟨false, []⟩, [.error (some "q") "Worker not initialized" none]) ∧
    eval_expr "q" (fun ns => (ns, .ok (.int 1))) ⟨false, []⟩
      = (⟨false, []⟩, [.error (some "q") "Worker not initialized" none]) :=
  uninitialized_request_rejected ⟨false, []⟩ "q"
    (fun ns => (nsInsert "x" (.int 1) ns, .ok))
    (fun ns => (ns, .ok (.int 1))) rfl

/-- A reply that is neither the matching success nor the matching error is
consumed by the dispatch loop without terminating it (only the `stdout`/
`stderr` accumulators may change). -/
theorem handle_worker_request_skip (sid : String) (reg : Registry)
    (msgId : String) (k : SuccessKind) (m : Msg) (evs : List ReadEvent)
    (so se : List String)
    (hms : matchesSuccess k msgId m = false) (hme : matchesError msgId m = false) :
    ∃ so' se', handle_worker_request sid reg msgId k (.msg m :: evs) so se
      = handle_worker_request sid reg msgId k evs so' se' := by
  cases m with
  | stdout v => exact ⟨so ++ [v], se, rfl⟩
  | stderr v => exact ⟨so, se ++ [v], rfl⟩
  | ready => exact ⟨so, se, by simp [handle_worker_request, hms, hme]⟩
  | progress v => exact ⟨so, se, by simp [handle_worker_request, hms, hme]⟩
  | ok i => exact ⟨so, se, by simp [handle_worker_request, hms, hme]⟩
  | value i v => exact ⟨so, se, by simp [handle_worker_request, hms, hme]⟩
  | error i e tb => exact ⟨so, se, by simp [handle_worker_request, hms, hme]⟩
  | streamData i v => exact ⟨so, se, by simp [handle_worker_request, hms, hme]⟩
  | streamDone i => exact ⟨so, se, by simp [handle_worker_request, hms, hme]⟩

/-- C9: when the dispatch loop's read raises `TimeoutError` (no message
within the controller-side budget) before any terminating reply was seen,
the dispatcher removes the session from the registry (the session id is no
longer present) and answers a distinguished timeout failure: HTTP 504 with
`errorType = "timeout"`. -/
theorem read_timeout_removes_session (sid : String) (reg : Registry)
    (msgId : String) (k : SuccessKind) (pre post : List ReadEvent)
    (so se : List String)
    (hpre : ∀ e ∈ pre, ∃ m, e = ReadEvent.msg m ∧
        matchesSuccess k msgId m = false ∧ matchesError msgId m = false) :
    (handle_worker_request sid reg msgId k (pre ++ .timeoutExn :: post) so se).1
      = remove_session sid reg ∧
    sid ∉ (handle_worker_request sid reg msgId k (pre ++ .timeoutExn :: post) so se).1 ∧
    ∃ resp,
      (handle_worker_request sid reg msgId k (pre ++ .timeoutExn :: post) so se).2
        = some resp ∧ resp.status = 504 ∧ resp.errorType = some "timeout" := by
  revert hpre
  induction pre generalizing so se with
  | nil =>
      intro _
      refine ⟨rfl, ?_, ⟨_, rfl, rfl, rfl⟩⟩
      simp [handle_worker_request, remove_session]
  | cons e rest ih =>
      intro hpre
      obtain ⟨m, rfl, hms, hme⟩ := hpre _ (List.mem_cons_self _ _)
      obtain ⟨so', se', hstep⟩ := handle_worker_request_skip sid reg msgId k m
        (rest ++ .timeoutExn :: post) so se hms hme
      rw [List.cons_append, hstep]
      exact ih so' se' (fun e he => hpre e (List.mem_cons_of_mem _ he))

/-- Witness for C9: one non-matching reply, then the read times out. -/
theorem read_timeout_removes_session_witness :
    (handle_worker_request "sess" ["sess", "other"] "r" .ok
        ([.msg (.stdout "hi")] ++ .timeoutExn :: []) [] []).1
      = remove_session "sess" ["sess", "other"] ∧
    "sess" ∉ (handle_worker_request "sess" ["sess", "other"] "r" .ok
        ([.msg (.stdout "hi")] ++ .timeoutExn :: []) [] []).1 ∧
    ∃ resp,
      (handle_worker_request "sess" ["sess", "other"] "r" .ok
          ([.msg (.stdout "hi")] ++ .timeoutExn :: []) [] []).2
        = some resp ∧ resp.status = 504 ∧ resp.errorType = some "timeout" :=
  read_timeout_removes_session "sess" ["sess", "other"] "r" .ok
    [.msg (.stdout "hi")] [] [] []
    (by intro e he
        simp only [List.mem_singleton] at he
        exact ⟨.stdout "hi", he, rfl, rfl⟩)

/-- The install loop never emits `ready` (only `progress`, `stdout`,
`stderr`). -/
theorem installLoop_no_ready (env : Pkg → PkgOutcome) (pkgs : List Pkg) :
    Msg.ready ∉ (installLoop env pkgs).1 := by
  induction pkgs with
  | nil => simp [installLoop]
  | cons p rest ih =>
      rcases henv : env p with v | _ | e0
      · simp [installLoop, ensurePackage, henv, ih]
      · simp [installLoop, ensurePackage, henv, ih]
      · by_cases hr : p.required
        · simp [installLoop, ensurePackage, henv, hr]
        · simp [installLoop, ensurePackage, henv, hr, ih]

/-- When every failing package in the list is optional, the install loop
raises nothing and reports each failure as one `stderr` line. -/
theorem installLoop_optional (env : Pkg → PkgOutcome) :
    ∀ pkgs : List Pkg,
    (∀ q ∈ pkgs, ∀ e, env q = .fail e → q.required = false) →
    (installLoop env pkgs).2 = none ∧
    ∀ q ∈ pkgs, ∀ e, env q = .fail e →
      Msg.stderr (optionalFailMsg q e) ∈ (installLoop env pkgs).1 := by
  intro pkgs
  induction pkgs with
  | nil =>
      intro _
      simp [installLoop]
  | cons p rest ih =>
      intro h
      have hrest := ih (fun q hq => h q (List.mem_cons_of_mem _ hq))
      rcases henv : env p with v | _ | e0
      · refine ⟨by simp [installLoop, ensurePackage, henv, hrest.1], ?_⟩
        intro q hq e hqe
        rcases List.mem_cons.mp hq with rfl | hq'
        · rw [henv] at hqe
          exact absurd hqe (by simp)
        · simp only [installLoop, ensurePackage, henv, List.mem_append]
          right
          exact hrest.2 q hq' e hqe
      · refine ⟨by simp [installLoop, ensurePackage, henv, hrest.1], ?_⟩
        intro q hq e hqe
        rcases List.mem_cons.mp hq with rfl | hq'
        · rw [henv] at hqe
          exact absurd hqe (by simp)
        · simp only [installLoop, ensurePackage, henv, List.mem_append]
          right
          exact hrest.2 q hq' e hqe
      · have hopt : p.required = false := h p (List.mem_cons_self _ _) e0 henv
        refine ⟨by simp [installLoop, ensurePackage, henv, hopt, hrest.1], ?_⟩
        intro q hq e hqe
        rcases List.mem_cons.mp hq with rfl | hq'
        · rw [henv] at hqe
          obtain rfl : e0 = e := by simpa using hqe
          simp [installLoop, ensurePackage, henv, hopt]
        · have hm := hrest.2 q hq' e hqe
          simp only [installLoop, ensurePackage, henv, hopt, Bool.false_eq_true,
            if_false, List.mem_append, List.mem_cons]
          tauto

/-- If the packages before `p` only fail optionally and `p` is a required
package that fails with `e`, the install loop raises the required-failure
`RuntimeError` text for `p`. -/
theorem installLoop_required_abort (env : Pkg → PkgOutcome) (p : Pkg) (e : String)
    (hp : env p = .fail e) (hreq : p.required = true) :
    ∀ pre : List Pkg,
    (∀ q ∈ pre, ∀ e', env q = .fail e' → q.required = false) →
    ∀ post : List Pkg,
    (installLoop env (pre ++ p :: post)).2 = some (requiredFailMsg p e) := by
  intro pre
  induction pre with
  | nil =>
      intro _ post
      simp [installLoop, ensurePackage, hp, hreq]
  | cons q rest ih =>
      intro h post
      have hq := h q (List.mem_cons_self _ _)
      have hrest := fun q' hq' => h q' (List.mem_cons_of_mem _ hq')
      rcases henv : env q with v | _ | e0
      · simp only [List.cons_append, installLoop, ensurePackage, henv]
        exact ih hrest post
      · simp only [List.cons_append, installLoop, ensurePackage, henv]
        exact ih hrest post
      · have hopt : q.required = false := hq e0 henv
        simp only [List.cons_append, installLoop, ensurePackage, henv, hopt,
          Bool.false_eq_true, if_false]
        exact ih hrest post

/-- `getLast?` of a cons whose tail ends in a singleton. -/
theorem getLast?_cons_concat {α : Type} (x a : α) (l : List α) :
    (x :: (l ++ [a])).getLast? = some a := by
  rw [List.getLast?_cons, List.getLast?_concat]
  rfl

/-- C8: starting uninitialized, (abort half) if the packages before `p` fail
at most optionally and `p` is required and fails, `init` handling ends in an
`error` terminal reply (last message), never sends `ready`, and leaves the
initialized flag false; (continue half) if every failing package of `pkgs`
is optional — witnessed for the failing package `q` — initialization reaches
`ready` (last message), sets the flag, and reports `q`'s failure as a
`stderr` message. -/
theorem init_required_vs_optional_failure (msgId : Option String)
    (env : Pkg → PkgOutcome) (pre post : List Pkg) (p : Pkg) (e : String)
    (ns0 : Namespace) (pkgs : List Pkg) (q : Pkg) (e' : String)
    (hpre : ∀ r ∈ pre, ∀ e'', env r = .fail e'' → r.required = false)
    (hp : env p = .fail e) (hreq : p.required = true)
    (hopt : ∀ r ∈ pkgs, ∀ e'', env r = .fail e'' → r.required = false)
    (hq : q ∈ pkgs) (hqe : env q = .fail e') :
    ((handle_init msgId (pre ++ p :: post) env ⟨false, ns0⟩).1.initialized = false ∧
     Msg.ready ∉ (handle_init msgId (pre ++ p :: post) env ⟨false, ns0⟩).2 ∧
     (handle_init msgId (pre ++ p :: post) env ⟨false, ns0⟩).2.getLast?
       = some (.error msgId (requiredFailMsg p e) none)) ∧
    ((handle_init msgId pkgs env ⟨false, ns0⟩).1.initialized = true ∧
     (handle_init msgId pkgs env ⟨false, ns0⟩).2.getLast? = some Msg.ready ∧
     Msg.stderr (optionalFailMsg q e')
       ∈ (handle_init msgId pkgs env ⟨false, ns0⟩).2) := by
  have hne : (pre ++ p :: post).isEmpty = false := by
    cases pre <;> rfl
  have hne2 : pkgs.isEmpty = false := by
    cases pkgs with
    | nil => exact absurd hq (by simp)
    | cons a l => rfl
  have hraise := installLoop_required_abort env p e hp hreq pre hpre post
  have hnoready := installLoop_no_ready env (pre ++ p :: post)
  have hoptL := installLoop_optional env pkgs hopt
  rcases hIL : installLoop env (pre ++ p :: post) with ⟨lm, rd⟩
  rw [hIL] at hraise hnoready
  simp only at hraise hnoready
  subst hraise
  rcases hIL2 : installLoop env pkgs with ⟨lm2, rd2⟩
  rw [hIL2] at hoptL
  simp only at hoptL
  obtain ⟨hrd2, hmem⟩ := hoptL
  subst hrd2
  refine ⟨⟨?_, ?_, ?_⟩, ?_, ?_, ?_⟩
  · simp [handle_init, initializeWorker, hne, hIL]
  · simp [handle_init, initializeWorker, hne, hIL, hnoready]
  · simp [handle_init, initializeWorker, hne, hIL]
    exact getLast?_cons_concat _ _ _
  · simp [handle_init, initializeWorker, hne2, hIL2]
  · simp [handle_init, initializeWorker, hne2, hIL2]
    exact getLast?_cons_concat _ _ _
  · have := hmem q hq e' hqe
    simp [handle_init, initializeWorker, hne2, hIL2]
    tauto

/-- Witness for C8: `numpy` (required) fails while `scipy` (optional) fails,
each in a one-package `init`. -/
theorem init_required_vs_optional_failure_witness :
    ((handle_init none ([] ++ (⟨"numpy", "numpy", true, false⟩ : Pkg) :: [])
        (fun r => if r.importName = "numpy" then .fail "no wheel"
                  else .fail "boom") ⟨false, []⟩).1.initialized = false ∧
     Msg.ready ∉ (handle_init none ([] ++ (⟨"numpy", "numpy", true, false⟩ : Pkg) :: [])
        (fun r => if r.importName = "numpy" then .fail "no wheel"
                  else .fail "boom") ⟨false, []⟩).2 ∧
     (handle_init none ([] ++ (⟨"numpy", "numpy", true, false⟩ : Pkg) :: [])
        (fun r => if r.importName = "numpy" then .fail "no wheel"
                  else .fail "boom") ⟨false, []⟩).2.getLast?
       = some (.error none (requiredFailMsg ⟨"numpy", "numpy", true, false⟩ "no wheel") none)) ∧
    ((handle_init none [⟨"scipy", "scipy", false, false⟩]
        (fun r => if r.importName = "numpy" then .fail "no wheel"
                  else .fail "boom") ⟨false, []⟩).1.initialized = true ∧
     (handle_init none [⟨"scipy", "scipy", false, false⟩]
        (fun r => if r.importName = "numpy" then .fail "no wheel"
                  else .fail "boom") ⟨false, []⟩).2.getLast? = some Msg.ready ∧
     Msg.stderr (optionalFailMsg ⟨"scipy", "scipy", false, false⟩ "boom")
       ∈ (handle_init none [⟨"scipy", "scipy", false, false⟩]
        (fun r => if r.importName = "numpy" then .fail "no wheel"
                  else .fail "boom") ⟨false, []⟩).2) :=
  init_required_vs_optional_failure none
    (fun r => if r.importName = "numpy" then .fail "no wheel" else .fail "boom")
    [] [] ⟨"numpy", "numpy", true, false⟩ "no wheel" []
    [⟨"scipy", "scipy", false, false⟩] ⟨"scipy", "scipy", false, false⟩ "boom"
    (by intro r hr; exact absurd hr (by simp))
    (by decide) rfl
    (by intro r hr e'' _
        simp only [List.mem_singleton] at hr
        subst hr
        rfl)
    (by decide) (by decide)

end PathView
